import Mathlib

/-!
Shallow embedding of `brian2/input/poissoninput.py` (class `PoissonInput`),
together with the collaborators it needs, modelled from the specification
where their code is not part of the sources: the `BinomialFunction`
constructor and sampler (`brian2/input/binomial.py`), the `check_units`
decorator and the dimension system (`brian2.units.fundamentalunits`), and
the `CodeRunner` registration machinery.
-/

namespace Brian2

/-- The seven SI base-dimension exponents, as in
`brian2.units.fundamentalunits.Dimension`. -/
structure Dimension where
  m : ℤ
  kg : ℤ
  s : ℤ
  A : ℤ
  K : ℤ
  mol : ℤ
  cd : ℤ
deriving DecidableEq, Repr

/-- The dimensionless dimension (all exponents zero). -/
def DIMENSIONLESS : Dimension := ⟨0, 0, 0, 0, 0, 0, 0⟩

/-- The dimension of time (seconds). -/
def secondDim : Dimension := ⟨0, 0, 1, 0, 0, 0, 0⟩

/-- The dimension of frequency (`Hz`, i.e. 1/time). -/
def hertzDim : Dimension := ⟨0, 0, -1, 0, 0, 0, 0⟩

/-- Dimensions multiply by adding exponents. -/
def Dimension.mul (a b : Dimension) : Dimension :=
  ⟨a.m + b.m, a.kg + b.kg, a.s + b.s, a.A + b.A, a.K + b.K, a.mol + b.mol, a.cd + b.cd⟩

/-- A dimensioned quantity: a rational magnitude together with a dimension,
as in `brian2.units.fundamentalunits.Quantity`. -/
structure Quantity where
  value : ℚ
  dim : Dimension
deriving DecidableEq, Repr

/-- Multiplication of quantities multiplies magnitudes and dimensions. -/
def Quantity.mul (a b : Quantity) : Quantity :=
  ⟨a.value * b.value, a.dim.mul b.dim⟩

/-- `get_dimensions` of a quantity returns its dimension. -/
def get_dimensions (q : Quantity) : Dimension := q.dim

/-- `have_same_dimensions` on two dimensions is dimension equality. -/
def have_same_dimensions (a b : Dimension) : Bool := a = b

/-- An opaque textual rendering of a quantity, standing for Python `repr`
(implemented outside the sources, in the units subsystem). No claim depends
on its content, only on which string the update code embeds. -/
def reprQuantity (q : Quantity) : String :=
  "Quantity(" ++ toString q.value.num ++ "/" ++ toString q.value.den ++ ")"

/-- A clock, exposing its fixed step duration `dt` (a time quantity). -/
structure SimClock where
  dt : Quantity
deriving DecidableEq, Repr

/-- The target `Group`: a name (for error messages), a variable registry
(`target.variables` in the source; `variables` is reserved in Lean, hence
`varTable`) mapping variable names to their dimensions, and a clock. -/
structure TargetGroup where
  name : String
  varTable : List (String × Dimension)
  clock : SimClock
deriving DecidableEq, Repr

/-- The unitless step duration `target.dt_`, the underlying magnitude of the
`dt` of the clock. -/
def TargetGroup.dtU (g : TargetGroup) : ℚ := g.clock.dt.value

/-- The errors `PoissonInput` construction and run setup can surface. -/
inductive BrianError where
  | keyError (msg : String)
  | dimensionMismatch (msg : String) (dimA dimB : Dimension)
  | notImplementedError (msg : String)
  | valueError (msg : String)
deriving DecidableEq, Repr

/-- Recognizes the configuration-changed (drift) error raised by
`PoissonInput.before_run`. -/
def BrianError.isConfigChanged : BrianError → Bool
  | .notImplementedError _ => true
  | _ => false

/-- The weight argument: either a string expression or a fixed quantity. -/
inductive Weight where
  | expr (s : String)
  | quantity (q : Quantity)
deriving DecidableEq, Repr

/-- The state of a constructed `BinomialFunction`: trial count, the success
probability fixed at construction, and the function name used in generated
code. -/
structure BinomialFunction where
  n : Quantity
  p : ℚ
  fname : String
deriving DecidableEq, Repr

/-- Modelled from the spec: the constructor of `BinomialFunction`
(`brian2/input/binomial.py` is not among the sources) validates that the
success probability reduces to a dimensionless value lying in [0, 1] and
otherwise fails with a parameter-range error (spec section 4.2, validation
step 3, and section 3: `successProbability: dimensionless real in [0,1]`). -/
def BinomialFunction.make (n : Quantity) (p : Quantity) (fname : String) :
    Except BrianError BinomialFunction :=
  if p.dim = DIMENSIONLESS ∧ 0 ≤ p.value ∧ p.value ≤ 1 then
    .ok ⟨n, p.value, fname⟩
  else
    .error (.valueError "The success probability must be a dimensionless value in [0, 1]")

/-- Modelled from the spec: the sampling primitive of the generated binomial
function (`brian2/input/binomial.py` is not among the sources). Per spec
section 4.1, a binomial draw is the sum of `trialCount` independent
Bernoulli(`successProbability`) trials; trial `i` succeeds when its uniform
draw `u i` (in `[0, 1)`) falls below the success probability. -/
def binomialSample (trialCount : ℕ) (successProbability : ℚ) (u : ℕ → ℚ) : ℕ :=
  ((List.range trialCount).filter (fun i => decide (u i < successProbability))).length

/-- A scheduled operation as registered with the execution engine by
`CodeRunner.__init__`: the abstract update code, the template, the
scheduling slot, the priority, and the clock it runs on. -/
structure ScheduledOp where
  code : String
  templateName : String
  whenSlot : String
  order : ℤ
  clockDt : Quantity
deriving DecidableEq, Repr

/-- The state of a constructed `PoissonInput` instance: the fields
`__init__` stores on `self`. -/
structure PoissonInput where
  weightArg : Weight
  target_var : String
  N : Quantity
  rate : Quantity
  binomial : BinomialFunction
  code : String
  stored_dt : ℚ
  groupName : String
deriving DecidableEq, Repr

/-- The message of the weight/target-variable dimension-mismatch error. -/
def mismatchMessage (target_var : String) : String :=
  "The provided weight does not have the same unit as the target variable \x27"
    ++ target_var ++ "\x27"

/-- The message of the configuration-changed error raised at run start. -/
def driftMessage (g : TargetGroup) : String :=
  "The dt used for simulating " ++ g.name
    ++ " changed after the PoissonInput source was created."

/-- The body of `PoissonInput.__init__` (inside the `check_units` decorator):
checks the target variable is registered, checks/renders the weight, builds
the binomial sampler from `rate * target.clock.dt`, builds the update code
string, snapshots `target.dt_`, and registers a `stateupdate` operation with
the execution engine (the registration itself, `CodeRunner.__init__`, is an
external collaborator modelled as appending to the schedule). Returns the
constructed instance or the raised error, together with the schedule. -/
def PoissonInput.initBody (target : TargetGroup) (target_var : String)
    (N : Quantity) (rate : Quantity) (weight : Weight)
    (whenSlot : String) (order : ℤ) (sched : List ScheduledOp) :
    Except BrianError PoissonInput × List ScheduledOp :=
  match target.varTable.lookup target_var with
  | none =>
      (.error (.keyError (target_var ++ " is not a variable of " ++ target.name)), sched)
  | some target_dims =>
    let weightStr : Except BrianError String :=
      match weight with
      | .expr s => .ok ("(" ++ s ++ ")")
      | .quantity q =>
          if have_same_dimensions (get_dimensions q) target_dims then
            .ok (reprQuantity q)
          else
            .error (.dimensionMismatch (mismatchMessage target_var)
              (get_dimensions q) target_dims)
    match weightStr with
    | .error e => (.error e, sched)
    | .ok wstr =>
      match BinomialFunction.make N (rate.mul target.clock.dt) "poissoninput_binomial*" with
      | .error e => (.error e, sched)
      | .ok binomial_sampling =>
        let code := target_var ++ " += " ++ binomial_sampling.fname ++ "()*" ++ wstr
        (.ok { weightArg := weight, target_var := target_var, N := N, rate := rate,
               binomial := binomial_sampling, code := code,
               stored_dt := target.dtU, groupName := target.name },
         sched ++ [{ code := code, templateName := "stateupdate",
                     whenSlot := whenSlot, order := order,
                     clockDt := target.clock.dt }])

/-- The message of the `check_units` error for a non-dimensionless `N`. -/
def nUnitMessage : String :=
  "Function PoissonInput.__init__ expected a dimensionless argument N"

/-- The message of the `check_units` error for a `rate` without 1/time
dimension. -/
def rateUnitMessage : String :=
  "Function PoissonInput.__init__ expected an argument rate with dimension 1/time"

/-- Modelled from the spec: the `check_units(N=1, rate=Hz)` decorator
(`brian2.units.fundamentalunits.check_units` is not among the sources)
validates the argument dimensions before the body of `__init__` runs: `N`
must be dimensionless and `rate` must carry dimension 1/time (spec sections
3 and 4.2). This is the full constructor as called by users. -/
def PoissonInput.new (target : TargetGroup) (target_var : String)
    (N : Quantity) (rate : Quantity) (weight : Weight)
    (whenSlot : String) (order : ℤ) (sched : List ScheduledOp) :
    Except BrianError PoissonInput × List ScheduledOp :=
  if N.dim ≠ DIMENSIONLESS then
    (.error (.dimensionMismatch nUnitMessage N.dim DIMENSIONLESS), sched)
  else if rate.dim ≠ hertzDim then
    (.error (.dimensionMismatch rateUnitMessage rate.dim hertzDim), sched)
  else
    PoissonInput.initBody target target_var N rate weight whenSlot order sched

/-- `PoissonInput.before_run`: compares the current unitless
step duration to the snapshot stored at construction; raises the
configuration-changed error when they differ, and otherwise delegates to
`CodeRunner.before_run` (an external collaborator, passed as `delegate`). -/
def PoissonInput.before_run (pi : PoissonInput) (group : TargetGroup)
    (delegate : Except BrianError Unit) : Except BrianError Unit :=
  if group.dtU ≠ pi.stored_dt then
    .error (.notImplementedError (driftMessage group))
  else delegate

/-- A simulation world: the (mutable) target group together with an
already-constructed input instance, if any. -/
structure SimState where
  group : TargetGroup
  input : Option PoissonInput
deriving DecidableEq, Repr

/-- Externally mutating the clock step duration of the target group after
construction: replaces the clock, touching nothing else. -/
def SimState.setClockDt (st : SimState) (d : Quantity) : SimState :=
  { st with group := { st.group with clock := ⟨d⟩ } }

/-- Decidable equality for `Except`, so that witness theorems can be checked
by evaluation. -/
instance exceptDecEq {ε α : Type} [DecidableEq ε] [DecidableEq α] :
    DecidableEq (Except ε α) := fun x y =>
  match x, y with
  | .ok a, .ok b =>
      if h : a = b then .isTrue (by rw [h])
      else .isFalse (fun hc => h (Except.ok.inj hc))
  | .error a, .error b =>
      if h : a = b then .isTrue (by rw [h])
      else .isFalse (fun hc => h (Except.error.inj hc))
  | .ok _, .error _ => .isFalse (fun hc => Except.noConfusion hc)
  | .error _, .ok _ => .isFalse (fun hc => Except.noConfusion hc)

/-! Concrete fixtures used by the witness theorems. -/

/-- A concrete target group: one registered variable `v` (dimensionless),
clock step duration 0.1 s. -/
def sampleTarget : TargetGroup := ⟨"tgt", [("v", DIMENSIONLESS)], ⟨⟨1/10, secondDim⟩⟩⟩

/-- A concrete dimensionless trial count, `N = 10`. -/
def sampleN : Quantity := ⟨10, DIMENSIONLESS⟩

/-- A concrete rate, `5 Hz`, giving success probability `1/2`. -/
def sampleRate : Quantity := ⟨5, hertzDim⟩

/-- The instance `PoissonInput.initBody` constructs from the fixtures above
with the string weight `w`. -/
def samplePI : PoissonInput :=
  { weightArg := .expr "w", target_var := "v", N := sampleN, rate := sampleRate,
    binomial := ⟨sampleN, 1/2, "poissoninput_binomial*"⟩,
    code := "v += poissoninput_binomial*()*(w)",
    stored_dt := 1/10, groupName := "tgt" }

/-- The success probability of the fixtures: `5 Hz * 0.1 s = 1/2`,
dimensionless. -/
theorem sample_prob : sampleRate.mul sampleTarget.clock.dt = ⟨1/2, DIMENSIONLESS⟩ := by
  simp only [Quantity.mul, Dimension.mul, sampleRate, sampleTarget, hertzDim, secondDim,
    DIMENSIONLESS, Quantity.mk.injEq, Dimension.mk.injEq]
  norm_num

/-- The single operation the fixture construction registers. -/
def sampleSched : List ScheduledOp :=
  [{ code := "v += poissoninput_binomial*()*(w)", templateName := "stateupdate",
     whenSlot := "synapses", order := 0, clockDt := ⟨1/10, secondDim⟩ }]

/-- Evaluating the fixture construction: it succeeds, produces `samplePI`
and registers exactly the operation in `sampleSched`. -/
theorem sampleInit_eq :
    PoissonInput.initBody sampleTarget "v" sampleN sampleRate (.expr "w") "synapses" 0 []
      = (.ok samplePI, sampleSched) := by
  simp only [PoissonInput.initBody, BinomialFunction.make, sample_prob]
  norm_num [sampleTarget, samplePI, sampleN, sampleRate, sampleSched, TargetGroup.dtU, secondDim]
  rfl

/-! The claims. -/

/-- C2: for every `trialCount ≥ 0` and uniform draws in `[0, 1)`, a binomial
sample is a non-negative integer at most `trialCount`; `trialCount = 0`
always yields 0, success probability 0 always yields 0, and success
probability 1 always yields `trialCount`. -/
theorem binomialSample_in_range (n : ℕ) (p : ℚ) (u : ℕ → ℚ)
    (hu : ∀ i, 0 ≤ u i ∧ u i < 1) :
    binomialSample n p u ≤ n ∧
    binomialSample 0 p u = 0 ∧
    (p = 0 → binomialSample n p u = 0) ∧
    (p = 1 → binomialSample n p u = n) := by
  refine ⟨?_, ?_, ?_, ?_⟩
  · calc ((List.range n).filter (fun i => decide (u i < p))).length
        ≤ (List.range n).length := List.length_filter_le _ _
      _ = n := List.length_range n
  · simp [binomialSample]
  · intro hp
    subst hp
    have hnil : (List.range n).filter (fun i => decide (u i < 0)) = [] := by
      rw [List.filter_eq_nil_iff]
      intro a _
      simp only [decide_eq_true_eq, not_lt]
      exact (hu a).1
    simp [binomialSample, hnil]
  · intro hp
    subst hp
    have hall : (List.range n).filter (fun i => decide (u i < 1)) = List.range n := by
      rw [List.filter_eq_self]
      intro a _
      simp only [decide_eq_true_eq]
      exact (hu a).2
    simp [binomialSample, hall]

/-- Witness for C2 at `trialCount = 3`, `p = 1/2`, constant draws `1/4`. -/
theorem binomialSample_in_range_witness :
    binomialSample 3 (1/2) (fun _ => (1/4 : ℚ)) ≤ 3 ∧
    binomialSample 0 (1/2) (fun _ => (1/4 : ℚ)) = 0 ∧
    ((1/2 : ℚ) = 0 → binomialSample 3 (1/2) (fun _ => (1/4 : ℚ)) = 0) ∧
    ((1/2 : ℚ) = 1 → binomialSample 3 (1/2) (fun _ => (1/4 : ℚ)) = 3) :=
  binomialSample_in_range 3 (1/2) (fun _ => (1/4 : ℚ))
    (fun _ => ⟨by norm_num, by norm_num⟩)

/-- C4: when the target variable is not registered with the target group,
construction fails with a `KeyError` naming both the variable and the
group, the schedule is left untouched, and this happens for every weight —
in particular before any weight dimension check. -/
theorem init_missing_target_var (target : TargetGroup) (tv : String)
    (N rate : Quantity) (w : Weight) (ws : String) (ord : ℤ)
    (sched : List ScheduledOp)
    (h : target.varTable.lookup tv = none) :
    PoissonInput.initBody target tv N rate w ws ord sched =
      (.error (.keyError (tv ++ " is not a variable of " ++ target.name)), sched) := by
  simp [PoissonInput.initBody, h]

/-- Witness for C4: variable `u` is absent from the fixture group, and even a
dimension-mismatched quantity weight still yields the `KeyError`. -/
theorem init_missing_target_var_witness :
    PoissonInput.initBody sampleTarget "u" sampleN sampleRate
        (.quantity ⟨1, secondDim⟩) "synapses" 0 [] =
      (.error (.keyError "u is not a variable of tgt"), []) :=
  init_missing_target_var sampleTarget "u" sampleN sampleRate
    (.quantity ⟨1, secondDim⟩) "synapses" 0 [] (by rfl)

/-- C8: construction is atomic — whenever `__init__` fails with any error,
the schedule of registered operations is exactly the one before the call
(no scheduled operation was registered), and no instance is produced. -/
theorem init_error_no_registration (target : TargetGroup) (tv : String)
    (N rate : Quantity) (w : Weight) (ws : String) (ord : ℤ)
    (sched : List ScheduledOp) (e : BrianError)
    (h : (PoissonInput.initBody target tv N rate w ws ord sched).1 = .error e) :
    (PoissonInput.initBody target tv N rate w ws ord sched).2 = sched := by
  simp only [PoissonInput.initBody] at h ⊢
  split at h
  · rfl
  · split at h
    · rfl
    · split at h
      · rfl
      · simp at h

/-- Witness for C8: the failing fixture construction (missing variable)
leaves the empty schedule empty. -/
theorem init_error_no_registration_witness :
    (PoissonInput.initBody sampleTarget "u" sampleN sampleRate
        (.quantity ⟨1, secondDim⟩) "synapses" 0 []).2 = [] :=
  init_error_no_registration sampleTarget "u" sampleN sampleRate
    (.quantity ⟨1, secondDim⟩) "synapses" 0 []
    (.keyError "u is not a variable of tgt") (by rfl)

/-- The fixture group after its clock step duration was externally changed
to 0.2 s. -/
def sampleTargetMut : TargetGroup := { sampleTarget with clock := ⟨⟨1/5, secondDim⟩⟩ }

/-- C1: the success probability of the binomial sampler is fixed at
construction as `rate * target.clock.dt` (and the trial count as `N`, the
snapshot as `target.dt_`); mutating the target clock afterwards leaves the
already-constructed instance — hence its sampler parameters — unchanged. -/
theorem successProbability_fixed_at_construction
    (target : TargetGroup) (tv : String) (N rate : Quantity) (w : Weight)
    (ws : String) (ord : ℤ) (sched sched2 : List ScheduledOp) (pi : PoissonInput)
    (h : PoissonInput.initBody target tv N rate w ws ord sched = (.ok pi, sched2)) :
    pi.binomial.p = (rate.mul target.clock.dt).value ∧
    pi.binomial.n = N ∧
    pi.stored_dt = target.dtU ∧
    ∀ d : Quantity, (SimState.setClockDt ⟨target, some pi⟩ d).input = some pi := by
  simp only [PoissonInput.initBody] at h
  split at h
  · simp at h
  · split at h
    · simp at h
    · split at h
      · simp at h
      · rename_i bs heq
        simp only [BinomialFunction.make] at heq
        split at heq
        · simp only [Except.ok.injEq] at heq
          simp only [Prod.mk.injEq, Except.ok.injEq] at h
          obtain ⟨h1, _⟩ := h
          subst h1
          subst heq
          exact ⟨rfl, rfl, rfl, fun d => rfl⟩
        · simp at heq

/-- Witness for C1 at the fixtures: probability `1/2`, trial count `N`,
snapshot `0.1`, and a clock mutation to 3 s leaves the instance intact. -/
theorem successProbability_fixed_witness :
    samplePI.binomial.p = (sampleRate.mul sampleTarget.clock.dt).value ∧
    samplePI.binomial.n = sampleN ∧
    samplePI.stored_dt = sampleTarget.dtU ∧
    (SimState.setClockDt ⟨sampleTarget, some samplePI⟩ ⟨3, secondDim⟩).input = some samplePI := by
  have h := successProbability_fixed_at_construction sampleTarget "v" sampleN sampleRate
    (.expr "w") "synapses" 0 [] sampleSched samplePI sampleInit_eq
  exact ⟨h.1, h.2.1, h.2.2.1, h.2.2.2 ⟨3, secondDim⟩⟩

/-- C3: `before_run` raises the configuration-changed error exactly when the
current step duration of the target differs from the snapshot taken at
construction; when they agree it proceeds to the delegated standard pre-run
setup; and construction itself never raises the configuration-changed
error. -/
theorem before_run_drift_check (pi : PoissonInput) (g : TargetGroup)
    (delegate : Except BrianError Unit) (target : TargetGroup) (tv : String)
    (N rate : Quantity) (w : Weight) (ws : String) (ord : ℤ)
    (sched : List ScheduledOp) :
    (g.dtU ≠ pi.stored_dt →
      pi.before_run g delegate = .error (.notImplementedError (driftMessage g))) ∧
    (g.dtU = pi.stored_dt → pi.before_run g delegate = delegate) ∧
    (∀ e, (PoissonInput.initBody target tv N rate w ws ord sched).1 = .error e →
      e.isConfigChanged = false) := by
  refine ⟨?_, ?_, ?_⟩
  · intro hne
    simp [PoissonInput.before_run, hne]
  · intro heq
    simp [PoissonInput.before_run, heq]
  · intro e h
    simp only [PoissonInput.initBody] at h
    split at h
    · simp only at h
      rw [← Except.error.inj h]
      rfl
    · split at h
      · rename_i e2 heq
        simp only at h
        rw [← Except.error.inj h]
        split at heq
        · simp at heq
        · split at heq
          · simp at heq
          · rw [← Except.error.inj heq]
            rfl
      · split at h
        · rename_i e2 heq
          simp only at h
          rw [← Except.error.inj h]
          simp only [BinomialFunction.make] at heq
          split at heq
          · simp at heq
          · rw [← Except.error.inj heq]
            rfl
        · simp at h

/-- Witness for C3: the mutated fixture clock (0.2 s vs the snapshot 0.1 s)
makes `before_run` fail with the drift error, the unmutated clock lets it
proceed to the delegate, and the error of the concrete failing construction is
not the configuration-changed error. -/
theorem before_run_drift_check_witness :
    samplePI.before_run sampleTargetMut (.ok ()) =
      .error (.notImplementedError (driftMessage sampleTargetMut)) ∧
    samplePI.before_run sampleTarget (.ok ()) = .ok () ∧
    BrianError.isConfigChanged (.keyError "u is not a variable of tgt") = false := by
  have h := before_run_drift_check samplePI sampleTargetMut (.ok ())
    sampleTarget "u" sampleN sampleRate (.quantity ⟨1, secondDim⟩) "synapses" 0 []
  have h2 := before_run_drift_check samplePI sampleTarget (.ok ())
    sampleTarget "u" sampleN sampleRate (.quantity ⟨1, secondDim⟩) "synapses" 0 []
  refine ⟨h.1 ?_, h2.2.1 ?_, h.2.2 (.keyError "u is not a variable of tgt") (by rfl)⟩
  · norm_num [sampleTargetMut, sampleTarget, TargetGroup.dtU, samplePI]
  · norm_num [sampleTarget, TargetGroup.dtU, samplePI]

/-- C5: with a fixed-quantity weight, construction fails with a
dimension-mismatch error reporting both dimensions exactly when the
dimension of the weight differs from that of the target variable; with equal
dimensions it succeeds for every magnitude (given the derived success
probability is admissible). -/
theorem weight_dimension_check (target : TargetGroup) (tv : String)
    (tdim : Dimension) (N rate q : Quantity) (ws : String) (ord : ℤ)
    (sched : List ScheduledOp)
    (hv : target.varTable.lookup tv = some tdim) :
    (q.dim ≠ tdim →
      PoissonInput.initBody target tv N rate (.quantity q) ws ord sched =
        (.error (.dimensionMismatch (mismatchMessage tv) q.dim tdim), sched)) ∧
    (q.dim = tdim →
      (rate.mul target.clock.dt).dim = DIMENSIONLESS →
      0 ≤ (rate.mul target.clock.dt).value →
      (rate.mul target.clock.dt).value ≤ 1 →
      PoissonInput.initBody target tv N rate (.quantity q) ws ord sched =
        (.ok { weightArg := .quantity q, target_var := tv, N := N, rate := rate,
               binomial := ⟨N, (rate.mul target.clock.dt).value, "poissoninput_binomial*"⟩,
               code := tv ++ " += " ++ "poissoninput_binomial*" ++ "()*" ++ reprQuantity q,
               stored_dt := target.dtU, groupName := target.name },
         sched ++ [{ code := tv ++ " += " ++ "poissoninput_binomial*" ++ "()*" ++ reprQuantity q,
                     templateName := "stateupdate", whenSlot := ws, order := ord,
                     clockDt := target.clock.dt }])) := by
  constructor
  · intro hne
    have hbool : have_same_dimensions q.dim tdim = false := by
      simp [have_same_dimensions, hne]
    simp [PoissonInput.initBody, hv, get_dimensions, hbool]
  · intro heq hdim h0 h1
    have hbool : have_same_dimensions q.dim tdim = true := by
      simp [have_same_dimensions, heq]
    simp only [PoissonInput.initBody, hv, get_dimensions, hbool, BinomialFunction.make,
      if_true]
    rw [if_pos ⟨hdim, h0, h1⟩]

/-- Witness for C5: a time-dimensioned weight against the dimensionless
fixture variable fails with the mismatch error carrying both dimensions; a
dimensionless weight of large magnitude (1000) succeeds. -/
theorem weight_dimension_check_witness :
    PoissonInput.initBody sampleTarget "v" sampleN sampleRate
        (.quantity ⟨1, secondDim⟩) "synapses" 0 [] =
      (.error (.dimensionMismatch (mismatchMessage "v") secondDim DIMENSIONLESS), []) ∧
    PoissonInput.initBody sampleTarget "v" sampleN sampleRate
        (.quantity ⟨1000, DIMENSIONLESS⟩) "synapses" 0 [] =
      (.ok { weightArg := .quantity ⟨1000, DIMENSIONLESS⟩, target_var := "v",
             N := sampleN, rate := sampleRate,
             binomial := ⟨sampleN, (sampleRate.mul sampleTarget.clock.dt).value,
                          "poissoninput_binomial*"⟩,
             code := "v" ++ " += " ++ "poissoninput_binomial*" ++ "()*"
               ++ reprQuantity ⟨1000, DIMENSIONLESS⟩,
             stored_dt := sampleTarget.dtU, groupName := sampleTarget.name },
       [] ++ [{ code := "v" ++ " += " ++ "poissoninput_binomial*" ++ "()*"
                  ++ reprQuantity ⟨1000, DIMENSIONLESS⟩,
                templateName := "stateupdate", whenSlot := "synapses", order := 0,
                clockDt := sampleTarget.clock.dt }]) := by
  have hbad := weight_dimension_check sampleTarget "v" DIMENSIONLESS sampleN sampleRate
    ⟨1, secondDim⟩ "synapses" 0 [] (by rfl)
  have hgood := weight_dimension_check sampleTarget "v" DIMENSIONLESS sampleN sampleRate
    ⟨1000, DIMENSIONLESS⟩ "synapses" 0 [] (by rfl)
  refine ⟨hbad.1 (by decide), hgood.2 rfl ?_ ?_ ?_⟩
  · rw [sample_prob]
  · rw [sample_prob]
    norm_num
  · rw [sample_prob]
    norm_num

/-- C6: with a string-expression weight no dimension-mismatch error is ever
raised (the check is deferred to the expression evaluator), and the built
update code embeds the expression wrapped in parentheses:
`target_var += <sampler>()*(<weight>)`. -/
theorem string_weight_deferred_and_parenthesized (target : TargetGroup)
    (tv : String) (tdim : Dimension) (N rate : Quantity) (s : String)
    (ws : String) (ord : ℤ) (sched : List ScheduledOp)
    (hv : target.varTable.lookup tv = some tdim) :
    (∀ m dA dB, (PoissonInput.initBody target tv N rate (.expr s) ws ord sched).1 ≠
      .error (.dimensionMismatch m dA dB)) ∧
    ((rate.mul target.clock.dt).dim = DIMENSIONLESS →
      0 ≤ (rate.mul target.clock.dt).value →
      (rate.mul target.clock.dt).value ≤ 1 →
      ∃ pi sched2,
        PoissonInput.initBody target tv N rate (.expr s) ws ord sched = (.ok pi, sched2) ∧
        pi.code = tv ++ " += " ++ "poissoninput_binomial*" ++ "()*" ++ ("(" ++ s ++ ")")) := by
  constructor
  · intro m dA dB hcontra
    simp only [PoissonInput.initBody] at hcontra
    split at hcontra
    · simp only at hcontra
      exact BrianError.noConfusion (Except.error.inj hcontra)
    · split at hcontra
      · rename_i e2 heq
        simp only [BinomialFunction.make] at heq
        split at heq
        · simp at heq
        · simp only at hcontra
          rw [← Except.error.inj heq] at hcontra
          exact BrianError.noConfusion (Except.error.inj hcontra)
      · simp at hcontra
  · intro hdim h0 h1
    refine ⟨{ weightArg := .expr s, target_var := tv, N := N, rate := rate,
              binomial := ⟨N, (rate.mul target.clock.dt).value, "poissoninput_binomial*"⟩,
              code := tv ++ " += " ++ "poissoninput_binomial*" ++ "()*" ++ ("(" ++ s ++ ")"),
              stored_dt := target.dtU, groupName := target.name },
            sched ++ [{ code := tv ++ " += " ++ "poissoninput_binomial*" ++ "()*"
                          ++ ("(" ++ s ++ ")"),
                        templateName := "stateupdate", whenSlot := ws, order := ord,
                        clockDt := target.clock.dt }], ?_, rfl⟩
    simp only [PoissonInput.initBody, hv, BinomialFunction.make]
    rw [if_pos ⟨hdim, h0, h1⟩]

/-- Witness for C6: the fixture construction with weight `a - b` succeeds
and builds exactly `v += poissoninput_binomial*()*(a - b)` — the expression
is parenthesized. -/
theorem string_weight_deferred_witness :
    ((PoissonInput.initBody sampleTarget "v" sampleN sampleRate (.expr "a - b")
        "synapses" 0 []).1 ≠
      .error (.dimensionMismatch (mismatchMessage "v") secondDim DIMENSIONLESS)) ∧
    ∃ pi sched2,
      PoissonInput.initBody sampleTarget "v" sampleN sampleRate (.expr "a - b")
          "synapses" 0 [] = (.ok pi, sched2) ∧
      pi.code = "v += poissoninput_binomial*()*(a - b)" := by
  have h := string_weight_deferred_and_parenthesized sampleTarget "v" DIMENSIONLESS
    sampleN sampleRate "a - b" "synapses" 0 [] (by rfl)
  refine ⟨h.1 (mismatchMessage "v") secondDim DIMENSIONLESS, ?_⟩
  obtain ⟨pi, sched2, hok, hcode⟩ := h.2 (by rw [sample_prob]) (by rw [sample_prob]; norm_num)
    (by rw [sample_prob]; norm_num)
  exact ⟨pi, sched2, hok, hcode.trans (by rfl)⟩

/-- C7: when `rate * target.clock.dt` does not reduce to a dimensionless
value in [0, 1], construction fails with the parameter-range error (shown
for a string weight and for a dimension-matching quantity weight). -/
theorem successProbability_range_check (target : TargetGroup) (tv : String)
    (tdim : Dimension) (N rate q : Quantity) (s : String) (ws : String)
    (ord : ℤ) (sched : List ScheduledOp)
    (hv : target.varTable.lookup tv = some tdim)
    (hbad : ¬((rate.mul target.clock.dt).dim = DIMENSIONLESS ∧
              0 ≤ (rate.mul target.clock.dt).value ∧
              (rate.mul target.clock.dt).value ≤ 1)) :
    PoissonInput.initBody target tv N rate (.expr s) ws ord sched =
      (.error (.valueError
        "The success probability must be a dimensionless value in [0, 1]"), sched) ∧
    (q.dim = tdim →
      PoissonInput.initBody target tv N rate (.quantity q) ws ord sched =
        (.error (.valueError
          "The success probability must be a dimensionless value in [0, 1]"), sched)) := by
  constructor
  · simp only [PoissonInput.initBody, hv, BinomialFunction.make]
    rw [if_neg hbad]
  · intro heq
    have hbool : have_same_dimensions (get_dimensions q) tdim = true := by
      simp [have_same_dimensions, get_dimensions, heq]
    simp only [PoissonInput.initBody, hv, hbool, BinomialFunction.make, if_true]
    rw [if_neg hbad]

/-- A fixture group whose clock step duration is a full second, so that the
5 Hz fixture rate yields success probability 5, outside [0, 1]. -/
def sampleTargetBig : TargetGroup := { sampleTarget with clock := ⟨⟨1, secondDim⟩⟩ }

/-- Witness for C7: `5 Hz * 1 s = 5 > 1` makes construction fail with the
parameter-range error, both for a string weight and a matching quantity
weight. -/
theorem successProbability_range_check_witness :
    PoissonInput.initBody sampleTargetBig "v" sampleN sampleRate (.expr "w")
        "synapses" 0 [] =
      (.error (.valueError
        "The success probability must be a dimensionless value in [0, 1]"), []) ∧
    PoissonInput.initBody sampleTargetBig "v" sampleN sampleRate
        (.quantity ⟨2, DIMENSIONLESS⟩) "synapses" 0 [] =
      (.error (.valueError
        "The success probability must be a dimensionless value in [0, 1]"), []) := by
  have hmul : sampleRate.mul sampleTargetBig.clock.dt = ⟨5, DIMENSIONLESS⟩ := by
    simp only [Quantity.mul, Dimension.mul, sampleRate, sampleTargetBig, sampleTarget,
      hertzDim, secondDim, DIMENSIONLESS, Quantity.mk.injEq, Dimension.mk.injEq]
    norm_num
  have h := successProbability_range_check sampleTargetBig "v" DIMENSIONLESS
    sampleN sampleRate ⟨2, DIMENSIONLESS⟩ "w" "synapses" 0 [] (by rfl)
    (by rw [hmul]; norm_num)
  exact ⟨h.1, h.2 rfl⟩

/-- C10: the `check_units` validation at the public constructor rejects a
non-dimensionless `N` and a `rate` without 1/time dimension with a
dimension error before any validation of the body runs (for every
target, weight and schedule, in particular ones the body would accept),
and leaves the schedule untouched. -/
theorem check_units_rejects_bad_arguments (target : TargetGroup) (tv : String)
    (N rate : Quantity) (w : Weight) (ws : String) (ord : ℤ)
    (sched : List ScheduledOp) :
    (N.dim ≠ DIMENSIONLESS →
      PoissonInput.new target tv N rate w ws ord sched =
        (.error (.dimensionMismatch nUnitMessage N.dim DIMENSIONLESS), sched)) ∧
    (N.dim = DIMENSIONLESS → rate.dim ≠ hertzDim →
      PoissonInput.new target tv N rate w ws ord sched =
        (.error (.dimensionMismatch rateUnitMessage rate.dim hertzDim), sched)) := by
  constructor
  · intro hN
    simp [PoissonInput.new, hN]
  · intro hN hr
    simp [PoissonInput.new, hN, hr]

/-- Witness for C10: with the fixture target (variable `v` present) and a
dimension-matching weight, a time-dimensioned `N` and a time-dimensioned
`rate` are each rejected with the argument-unit error. -/
theorem check_units_rejects_witness :
    PoissonInput.new sampleTarget "v" ⟨10, secondDim⟩ sampleRate
        (.quantity ⟨1, DIMENSIONLESS⟩) "synapses" 0 [] =
      (.error (.dimensionMismatch nUnitMessage secondDim DIMENSIONLESS), []) ∧
    PoissonInput.new sampleTarget "v" sampleN ⟨5, secondDim⟩
        (.quantity ⟨1, DIMENSIONLESS⟩) "synapses" 0 [] =
      (.error (.dimensionMismatch rateUnitMessage secondDim hertzDim), []) := by
  have h1 := check_units_rejects_bad_arguments sampleTarget "v" ⟨10, secondDim⟩ sampleRate
    (.quantity ⟨1, DIMENSIONLESS⟩) "synapses" 0 []
  have h2 := check_units_rejects_bad_arguments sampleTarget "v" sampleN ⟨5, secondDim⟩
    (.quantity ⟨1, DIMENSIONLESS⟩) "synapses" 0 []
  exact ⟨h1.1 (by decide), h2.2 (by decide) (by decide)⟩

/-- A copy of the fixture instance with a given construction-time snapshot
of the step duration (all other fields as in `samplePI`). -/
def piStored (d : ℚ) : PoissonInput := { samplePI with stored_dt := d }

/-- The fixture group with a given current clock step duration. -/
def gWithDt (d : ℚ) : TargetGroup := { sampleTarget with clock := ⟨⟨d, secondDim⟩⟩ }

/-- Counterexample to C9 as stated: the configuration-drift error does not
report the two step-duration values. With snapshot 2 s and current 3 s the
raised error is literally the same as with snapshot 5 s and current 7 s — a
fixed message naming only the group — and that message contains none of
the digits of any of the four values. -/
theorem drift_error_omits_dt_values :
    (piStored 2).before_run (gWithDt 3) (.ok ()) =
      (piStored 5).before_run (gWithDt 7) (.ok ()) ∧
    (piStored 2).before_run (gWithDt 3) (.ok ()) =
      .error (.notImplementedError
        "The dt used for simulating tgt changed after the PoissonInput source was created.") ∧
    ("The dt used for simulating tgt changed after the PoissonInput source was created.".toList.contains
        (Char.ofNat 50) = false) ∧
    ("The dt used for simulating tgt changed after the PoissonInput source was created.".toList.contains
        (Char.ofNat 51) = false) ∧
    ("The dt used for simulating tgt changed after the PoissonInput source was created.".toList.contains
        (Char.ofNat 53) = false) ∧
    ("The dt used for simulating tgt changed after the PoissonInput source was created.".toList.contains
        (Char.ofNat 55) = false) := by
  refine ⟨?_, ?_, by decide, by decide, by decide, by decide⟩
  · rfl
  · rfl

/-- C9 as amended: every error aborts construction or run setup immediately
(construction errors leave the schedule untouched and yield no instance);
the missing-variable error names the variable and the target entity, the
dimension-mismatch error carries both dimensions, and the
configuration-drift error identifies the affected target entity by name
(it does not report the two step-duration values). -/
theorem errors_carry_context (target : TargetGroup) (tv : String)
    (tdim : Dimension) (N rate q : Quantity) (w : Weight) (ws : String)
    (ord : ℤ) (sched : List ScheduledOp) (pi : PoissonInput) (g : TargetGroup)
    (delegate : Except BrianError Unit) :
    (target.varTable.lookup tv = none →
      PoissonInput.initBody target tv N rate w ws ord sched =
        (.error (.keyError (tv ++ " is not a variable of " ++ target.name)), sched)) ∧
    (target.varTable.lookup tv = some tdim → q.dim ≠ tdim →
      PoissonInput.initBody target tv N rate (.quantity q) ws ord sched =
        (.error (.dimensionMismatch (mismatchMessage tv) q.dim tdim), sched)) ∧
    (g.dtU ≠ pi.stored_dt →
      pi.before_run g delegate =
        .error (.notImplementedError
          ("The dt used for simulating " ++ g.name
            ++ " changed after the PoissonInput source was created."))) := by
  refine ⟨?_, ?_, ?_⟩
  · intro h
    simp [PoissonInput.initBody, h]
  · intro hv hne
    have hbool : have_same_dimensions q.dim tdim = false := by
      simp [have_same_dimensions, hne]
    simp [PoissonInput.initBody, hv, get_dimensions, hbool]
  · intro hne
    simp [PoissonInput.before_run, hne, driftMessage]

/-- Witness for the amended C9: the three errors at concrete inputs, each
carrying the stated context. -/
theorem errors_carry_context_witness :
    PoissonInput.initBody sampleTarget "u" sampleN sampleRate (.expr "w")
        "synapses" 0 [] =
      (.error (.keyError "u is not a variable of tgt"), []) ∧
    PoissonInput.initBody sampleTarget "v" sampleN sampleRate
        (.quantity ⟨4, secondDim⟩) "synapses" 0 [] =
      (.error (.dimensionMismatch (mismatchMessage "v") secondDim DIMENSIONLESS), []) ∧
    samplePI.before_run sampleTargetMut (.ok ()) =
      .error (.notImplementedError
        ("The dt used for simulating " ++ sampleTargetMut.name
          ++ " changed after the PoissonInput source was created.")) := by
  have h := errors_carry_context sampleTarget "u" DIMENSIONLESS sampleN sampleRate
    ⟨4, secondDim⟩ (.expr "w") "synapses" 0 [] samplePI sampleTargetMut (.ok ())
  have h2 := errors_carry_context sampleTarget "v" DIMENSIONLESS sampleN sampleRate
    ⟨4, secondDim⟩ (.expr "w") "synapses" 0 [] samplePI sampleTargetMut (.ok ())
  refine ⟨h.1 (by rfl), h2.2.1 (by rfl) (by decide), h.2.2 ?_⟩
  norm_num [sampleTargetMut, sampleTarget, TargetGroup.dtU, samplePI]

end Brian2
